import Mathlib

/-!
Verification of the RVM-Status repository: a Django REST endpoint exposing
CRUD and filtered listing over a single entity `RVM`.

The embedding mirrors the four source files:
* `src/status/models.py` — the `RVM` model, its field defaults and
  `Meta.ordering = ("-last_usage",)`;
* `src/status/serializers.py` — `RVMSerializer` whose `Meta` lists the five
  fields and declares `read_only_fields = fields` (every field read-only);
* `src/status/views.py` — `RVMFilter` (the `loc` icontains filter and the
  `recent` 24h filter) and `RVMViewSet` whose queryset is
  `RVM.objects.filter(is_active=True)`;
* `src/status/urls.py` — routing only; it adds no logic.

Timestamps are modelled as integers (seconds); `timedelta(hours=24)` becomes
the constant 86400.  The persistent store is a list of records plus a
counter supplying the next auto-assigned primary key.
-/

namespace RVMStatus

/-- An RVM record, from `src/status/models.py` (`class RVM`): primary key,
`name`, `location`, `is_active` and the nullable `last_usage` timestamp. -/
structure RVM where
  id : Nat
  name : String
  location : String
  is_active : Bool
  last_usage : Option Int
  deriving DecidableEq

/-- Field `models.CharField(max_length=255)` without an explicit default: Django
instantiates such a non-null character field with the empty string. -/
def nameDefault : String := ""

/-- Field `models.CharField(max_length=255, default="Cairo")`. -/
def locationDefault : String := "Cairo"

/-- Field `models.BooleanField(default=True)`. -/
def isActiveDefault : Bool := true

/-- Field `models.DateTimeField(null=True, blank=True, default=None)`. -/
def lastUsageDefault : Option Int := none

/-- Ordering `Meta.ordering = ("-last_usage",)`: descending by `last_usage`.
`usageLe a b` holds when `a` may be placed before `b`.  The placement of
null timestamps is decided by the database backend, whose configuration is
not part of `src/`.  Modelled from the spec for the null case: "records
having no usage timestamp sorted last (nulls-last descending)", so a null
timestamp compares below every concrete one. -/
def usageLe (a b : RVM) : Bool :=
  match a.last_usage, b.last_usage with
  | some x, some y => y ≤ x
  | some _, none => true
  | none, some _ => false
  | none, none => true

/-- The ordering as a relation, for sorting the queryset. -/
def usageRel (a b : RVM) : Prop := usageLe a b = true

instance : DecidableRel usageRel := fun a b =>
  inferInstanceAs (Decidable (usageLe a b = true))

/-- List `RVMSerializer.Meta.fields` from `src/status/serializers.py`. -/
def serializerFields : List String :=
  ["id", "name", "location", "is_active", "last_usage"]

/-- List `RVMSerializer.Meta.read_only_fields = fields`. -/
def readOnlyFields : List String := serializerFields

/-- The serializer fields that accept input: a field is writable exactly
when it is declared and not listed read-only. -/
def writableFields : List String :=
  serializerFields.filter (fun f => !(readOnlyFields.contains f))

/-- A request body: each serializer field may be supplied or omitted.
`last_usage` may be supplied as null, hence the nested option. -/
structure Body where
  id : Option Nat
  name : Option String
  location : Option String
  is_active : Option Bool
  last_usage : Option (Option Int)
  deriving DecidableEq

/-- The body supplying no field at all. -/
def emptyBody : Body := ⟨none, none, none, none, none⟩

/-- The data the serializer passes to `save()`: the supplied values of the
writable fields (`id` is never writable in a `ModelSerializer`). -/
structure ValidatedData where
  name : Option String
  location : Option String
  is_active : Option Bool
  last_usage : Option (Option Int)
  deriving DecidableEq

/-- API outcomes other than success: a DRF validation error (HTTP 400,
listing the offending fields) or a not-found error (HTTP 404). -/
inductive ApiError where
  | notFound
  | validation (fields : List String)
  deriving DecidableEq

/-- The writable required fields the body fails to supply.  In the model
only `name` is required (the other fields have defaults or allow null), and
DRF checks required-ness only for writable fields. -/
def requiredMissing (b : Body) : List String :=
  writableFields.filter (fun f => f == "name" && b.name.isNone)

/-- Validation by `RVMSerializer`: reject with the missing required writable
fields, otherwise collect the supplied values of the writable fields. -/
def runValidation (b : Body) : Except ApiError ValidatedData :=
  if (requiredMissing b).isEmpty then
    .ok
      { name := if writableFields.contains "name" then b.name else none
        location := if writableFields.contains "location" then b.location else none
        is_active := if writableFields.contains "is_active" then b.is_active else none
        last_usage := if writableFields.contains "last_usage" then b.last_usage else none }
  else
    .error (.validation (requiredMissing b))

/-- The serialized response shape: all five declared fields. -/
structure SerializedRVM where
  id : Nat
  name : String
  location : String
  is_active : Bool
  last_usage : Option Int
  deriving DecidableEq

/-- Serializer output: every declared field of the record is exposed. -/
def serialize (r : RVM) : SerializedRVM :=
  { id := r.id
    name := r.name
    location := r.location
    is_active := r.is_active
    last_usage := r.last_usage }

/-- The persistent store: the stored records and the next primary key the
store will assign. -/
structure Store where
  records : List RVM
  nextId : Nat
  deriving DecidableEq

/-- Creation via `ModelSerializer.create`: instantiate the model from the validated data,
falling back to each model field's default. -/
def createRecord (vd : ValidatedData) (s : Store) : Store × RVM :=
  let r : RVM :=
    { id := s.nextId
      name := vd.name.getD nameDefault
      location := vd.location.getD locationDefault
      is_active := vd.is_active.getD isActiveDefault
      last_usage := vd.last_usage.getD lastUsageDefault }
  ({ records := s.records ++ [r], nextId := s.nextId + 1 }, r)

/-- Mutation via `ModelSerializer.update`: set each attribute present in the validated
data on the instance, leaving the others alone. -/
def applyUpdate (vd : ValidatedData) (r : RVM) : RVM :=
  { r with
    name := vd.name.getD r.name
    location := vd.location.getD r.location
    is_active := vd.is_active.getD r.is_active
    last_usage := vd.last_usage.getD r.last_usage }

/-- The records reachable through the endpoint:
`queryset = RVM.objects.filter(is_active=True)` from `src/status/views.py`. -/
def activeRecords (s : Store) : List RVM :=
  s.records.filter (fun r => r.is_active)

/-- The view's queryset with the model ordering applied.  The sort is
stable, matching the spec's "exact tie-break unspecified — treat as stable
w.r.t. insertion". -/
def queryset (s : Store) : List RVM :=
  List.insertionSort usageRel (activeRecords s)

/-- The query parameters `RVMFilter` understands: `location` (exact match,
from `Meta.fields`), `loc` (icontains) and `recent` (boolean). -/
structure QueryParams where
  location : Option String
  loc : Option String
  recent : Option Bool
  deriving DecidableEq

/-- All query parameters absent. -/
def noParams : QueryParams := ⟨none, none, none⟩

/-- Lower-case the characters of a string. -/
def lowerChars (s : String) : List Char :=
  s.data.map Char.toLower

/-- Test `startsWithChars hay needle`: `needle` is an initial run of `hay`. -/
def startsWithChars : List Char → List Char → Bool
  | _, [] => true
  | [], _ :: _ => false
  | h :: hs, n :: ns => h == n && startsWithChars hs ns

/-- Test `occursWithin hay needle`: `needle` occurs contiguously inside `hay`. -/
def occursWithin : List Char → List Char → Bool
  | [], needle => needle.isEmpty
  | h :: t, needle => startsWithChars (h :: t) needle || occursWithin t needle

/-- The `icontains` lookup: case-insensitive substring match. -/
def icontains (hay needle : String) : Bool :=
  occursWithin (lowerChars hay) (lowerChars needle)

/-- The `location` exact-match filter (declared via `Meta.fields`). -/
def filterLocationExact (p : Option String) (qs : List RVM) : List RVM :=
  match p with
  | none => qs
  | some v => qs.filter (fun r => r.location == v)

/-- The `loc` filter: `CharFilter(field_name="location", lookup_expr="icontains")`. -/
def filterLoc (p : Option String) (qs : List RVM) : List RVM :=
  match p with
  | none => qs
  | some v => qs.filter (fun r => icontains r.location v)

/-- Constant `timedelta(hours=24)` in seconds. -/
def dayTimedelta : Int := 24 * 60 * 60

/-- Method `RVMFilter.filter_recent`: when the flag is set, compute the cutoff
`timezone.now() - timedelta(hours=24)` once and keep the records with a
non-null `last_usage` at or after it; otherwise return the queryset as is. -/
def filter_recent (now : Int) (qs : List RVM) (value : Bool) : List RVM :=
  if value then
    let cutoff := now - dayTimedelta
    qs.filter (fun r =>
      match r.last_usage with
      | none => false
      | some t => cutoff ≤ t)
  else
    qs

/-- Dispatch of the optional `recent` parameter to `filter_recent`. -/
def applyRecent (now : Int) (p : Option Bool) (qs : List RVM) : List RVM :=
  match p with
  | none => qs
  | some v => filter_recent now qs v

/-- Filter set `RVMFilter`: every supplied parameter narrows the queryset in turn. -/
def filterQueryset (now : Int) (p : QueryParams) (qs : List RVM) : List RVM :=
  applyRecent now p.recent (filterLoc p.loc (filterLocationExact p.location qs))

/-- The list endpoint (`GET /rvms/`): the filter set applied to the view's
queryset, `now` being the request's timestamp. -/
def listRVMs (p : QueryParams) (now : Int) (s : Store) : List RVM :=
  filterQueryset now p (queryset s)

/-- The retrieve endpoint (`GET /rvms/{id}/`): look the identifier up in the
view's queryset; a miss is a 404. -/
def retrieve (i : Nat) (s : Store) : Except ApiError RVM :=
  match (queryset s).find? (fun r => r.id == i) with
  | some r => .ok r
  | none => .error .notFound

/-- The create endpoint (`POST /rvms/`): validate, then build the record. -/
def create (b : Body) (s : Store) : Except ApiError (Store × RVM) :=
  (runValidation b).map (fun vd => createRecord vd s)

/-- The update endpoint (`PUT`/`PATCH /rvms/{id}/`): find the instance in
the view's queryset (404 on a miss), validate, apply and save. -/
def update (i : Nat) (b : Body) (s : Store) : Except ApiError (Store × RVM) :=
  match (queryset s).find? (fun r => r.id == i) with
  | none => .error .notFound
  | some r =>
    match runValidation b with
    | .error e => .error e
    | .ok vd =>
      .ok
        ({ s with
            records := s.records.map (fun x => if x.id == i then applyUpdate vd x else x) },
          applyUpdate vd r)

/-- The delete endpoint (`DELETE /rvms/{id}/`): find the instance in the
view's queryset (404 on a miss), then delete it from the table by primary
key (a hard delete). -/
def destroy (i : Nat) (s : Store) : Except ApiError Store :=
  match (queryset s).find? (fun r => r.id == i) with
  | none => .error .notFound
  | some _ => .ok { s with records := s.records.filter (fun x => !(x.id == i)) }

/-! ### Serializer lemmas -/

/-- With `read_only_fields = fields`, no serializer field is writable. -/
theorem writableFields_eq : writableFields = [] := by decide

/-- No required-field error can arise: required-ness is only checked on
writable fields, and there are none. -/
theorem requiredMissing_eq (b : Body) : requiredMissing b = [] := by
  rw [requiredMissing, writableFields_eq]
  rfl

/-- Validation always succeeds and collects no data. -/
theorem runValidation_eq (b : Body) :
    runValidation b = .ok ⟨none, none, none, none⟩ := by
  rw [runValidation, requiredMissing_eq]
  rw [writableFields_eq]
  rfl

/-- Applying empty validated data changes nothing. -/
theorem applyUpdate_empty (r : RVM) : applyUpdate ⟨none, none, none, none⟩ r = r :=
  rfl

/-! ### Queryset and endpoint lemmas -/

/-- Membership in the view's queryset: stored and active. -/
theorem mem_queryset (s : Store) (r : RVM) :
    r ∈ queryset s ↔ r ∈ s.records ∧ r.is_active = true := by
  rw [queryset, activeRecords, List.mem_insertionSort, List.mem_filter]

/-- Retrieval succeeds exactly when the queryset lookup does. -/
theorem retrieve_ok_iff {i : Nat} {s : Store} {r : RVM} :
    retrieve i s = .ok r ↔ (queryset s).find? (fun x => x.id == i) = some r := by
  rw [retrieve]
  cases hf : (queryset s).find? (fun x => x.id == i) <;> simp

/-- A retrieved record is stored, active, and carries the looked-up id. -/
theorem retrieve_ok_facts {i : Nat} {s : Store} {r : RVM} (h : retrieve i s = .ok r) :
    r ∈ s.records ∧ r.is_active = true ∧ r.id = i := by
  rw [retrieve_ok_iff] at h
  have hmem := (mem_queryset s r).mp (List.mem_of_find?_eq_some h)
  have hid := List.find?_some h
  exact ⟨hmem.1, hmem.2, by simpa using hid⟩

/-- When every stored record with the looked-up id is inactive, the
queryset lookup misses. -/
theorem queryset_find?_eq_none {s : Store} {i : Nat}
    (h : ∀ x ∈ s.records, x.id = i → x.is_active = false) :
    (queryset s).find? (fun x => x.id == i) = none := by
  rw [List.find?_eq_none]
  intro x hx
  rw [mem_queryset] at hx
  simp only [beq_iff_eq]
  intro hid
  have := h x hx.1 hid
  rw [hx.2] at this
  cases this

/-- Retrieve misses (404) when the id belongs to no active record. -/
theorem retrieve_notFound {s : Store} {i : Nat}
    (h : ∀ x ∈ s.records, x.id = i → x.is_active = false) :
    retrieve i s = .error .notFound := by
  rw [retrieve, queryset_find?_eq_none h]

/-- An update addressed to a visible record succeeds, returns the record
unchanged, and leaves the store unchanged. -/
theorem update_found {i : Nat} {s : Store} {r : RVM} (b : Body)
    (h : (queryset s).find? (fun x => x.id == i) = some r) :
    update i b s = .ok (s, r) := by
  rw [update, h, runValidation_eq]
  have hmap :
      s.records.map
          (fun x => if x.id == i then applyUpdate ⟨none, none, none, none⟩ x else x) =
        s.records := by
    simp [applyUpdate_empty]
  simp [hmap, applyUpdate_empty]

/-! ### Filter membership lemmas -/

theorem mem_filterLocationExact {p : Option String} {qs : List RVM} {r : RVM} :
    r ∈ filterLocationExact p qs ↔
      r ∈ qs ∧ ∀ v, p = some v → r.location = v := by
  cases p <;> simp [filterLocationExact, List.mem_filter]

theorem mem_filterLoc {p : Option String} {qs : List RVM} {r : RVM} :
    r ∈ filterLoc p qs ↔
      r ∈ qs ∧ ∀ v, p = some v → icontains r.location v = true := by
  cases p <;> simp [filterLoc, List.mem_filter]

theorem mem_applyRecent {now : Int} {p : Option Bool} {qs : List RVM} {r : RVM} :
    r ∈ applyRecent now p qs ↔
      r ∈ qs ∧
        (p = some true → ∃ t, r.last_usage = some t ∧ now - dayTimedelta ≤ t) := by
  cases p with
  | none => simp [applyRecent]
  | some v =>
    cases v with
    | false => simp [applyRecent, filter_recent]
    | true =>
      rw [applyRecent, filter_recent, if_pos rfl, List.mem_filter]
      cases hl : r.last_usage <;> simp [hl]

/-- Membership in a list response: stored, active, and passing every
supplied filter. -/
theorem mem_listRVMs {p : QueryParams} {now : Int} {s : Store} {r : RVM} :
    r ∈ listRVMs p now s ↔
      r ∈ s.records ∧ r.is_active = true ∧
      (∀ v, p.location = some v → r.location = v) ∧
      (∀ v, p.loc = some v → icontains r.location v = true) ∧
      (p.recent = some true → ∃ t, r.last_usage = some t ∧ now - dayTimedelta ≤ t) := by
  rw [listRVMs, filterQueryset, mem_applyRecent, mem_filterLoc, mem_filterLocationExact,
    mem_queryset]
  tauto

/-- With no parameters supplied the filter set is the identity. -/
theorem listRVMs_noParams (now : Int) (s : Store) :
    listRVMs noParams now s = queryset s :=
  rfl

/-! ### Ordering lemmas -/

theorem usageLe_trans (a b c : RVM) (hab : usageLe a b = true)
    (hbc : usageLe b c = true) : usageLe a c = true := by
  rcases ha : a.last_usage with _ | x <;> rcases hb : b.last_usage with _ | y <;>
      rcases hc : c.last_usage with _ | z <;>
    simp_all [usageLe] <;> omega

theorem usageLe_total (a b : RVM) : (usageLe a b || usageLe b a) = true := by
  rcases ha : a.last_usage with _ | x <;> rcases hb : b.last_usage with _ | y <;>
    simp_all [usageLe] <;> omega

instance : IsTrans RVM usageRel := ⟨usageLe_trans⟩

instance : IsTotal RVM usageRel := ⟨fun a b => by
  have h := usageLe_total a b
  rw [Bool.or_eq_true] at h
  exact h⟩

/-- The queryset comes out sorted by the model ordering. -/
theorem pairwise_queryset (s : Store) :
    (queryset s).Pairwise (fun a b => usageLe a b = true) :=
  List.sorted_insertionSort usageRel (activeRecords s)

theorem pairwise_filterLocationExact {R : RVM → RVM → Prop} {p : Option String}
    {qs : List RVM} (h : qs.Pairwise R) : (filterLocationExact p qs).Pairwise R := by
  cases p with
  | none => exact h
  | some v => exact List.Pairwise.sublist (List.filter_sublist qs) h

theorem pairwise_filterLoc {R : RVM → RVM → Prop} {p : Option String}
    {qs : List RVM} (h : qs.Pairwise R) : (filterLoc p qs).Pairwise R := by
  cases p with
  | none => exact h
  | some v => exact List.Pairwise.sublist (List.filter_sublist qs) h

theorem pairwise_applyRecent {R : RVM → RVM → Prop} {now : Int} {p : Option Bool}
    {qs : List RVM} (h : qs.Pairwise R) : (applyRecent now p qs).Pairwise R := by
  cases p with
  | none => exact h
  | some v =>
    cases v with
    | false => exact h
    | true => exact List.Pairwise.sublist (List.filter_sublist qs) h

/-- Every list response is sorted by the model ordering: the filters only
discard elements. -/
theorem pairwise_listRVMs (p : QueryParams) (now : Int) (s : Store) :
    (listRVMs p now s).Pairwise (fun a b => usageLe a b = true) :=
  pairwise_applyRecent (pairwise_filterLoc (pairwise_filterLocationExact
    (pairwise_queryset s)))

/-! ### Substring lemmas for the icontains lookup -/

theorem startsWithChars_iff (needle : List Char) :
    ∀ hay, startsWithChars hay needle = true ↔ ∃ t, hay = needle ++ t := by
  induction needle with
  | nil =>
    intro hay
    simp [startsWithChars]
  | cons n ns ih =>
    intro hay
    cases hay with
    | nil => simp [startsWithChars]
    | cons h hs =>
      rw [startsWithChars, Bool.and_eq_true, beq_iff_eq, ih hs]
      constructor
      · rintro ⟨rfl, t, rfl⟩
        exact ⟨t, rfl⟩
      · rintro ⟨t, ht⟩
        injection ht with h1 h2
        exact ⟨h1, t, h2⟩

theorem occursWithin_iff (needle : List Char) :
    ∀ hay, occursWithin hay needle = true ↔ ∃ u v, hay = u ++ needle ++ v := by
  intro hay
  induction hay with
  | nil =>
    rw [occursWithin]
    constructor
    · intro h
      refine ⟨[], [], ?_⟩
      rw [List.isEmpty_iff] at h
      rw [h]
      rfl
    · rintro ⟨u, v, h⟩
      have h2 := h.symm
      rw [List.append_eq_nil] at h2
      have h3 := h2.1
      rw [List.append_eq_nil] at h3
      rw [h3.2]
      rfl
  | cons c t ih =>
    rw [occursWithin, Bool.or_eq_true, startsWithChars_iff needle (c :: t), ih]
    constructor
    · rintro (⟨w, hw⟩ | ⟨u, v, huv⟩)
      · exact ⟨[], w, by simpa using hw⟩
      · refine ⟨c :: u, v, ?_⟩
        rw [huv]
        rfl
    · rintro ⟨u, v, huv⟩
      cases u with
      | nil =>
        left
        exact ⟨v, by simpa using huv⟩
      | cons x xs =>
        right
        injection huv with h1 h2
        exact ⟨xs, v, h2⟩

/-- The icontains lookup holds exactly when the lower-cased needle occurs
contiguously inside the lower-cased haystack. -/
theorem icontains_iff (hay needle : String) :
    icontains hay needle = true ↔
      ∃ u v, lowerChars hay = u ++ lowerChars needle ++ v := by
  rw [icontains]
  exact occursWithin_iff (lowerChars needle) (lowerChars hay)

/-! ### Concrete data used by counterexamples and witnesses -/

/-- An active machine in Cairo with a usage timestamp. -/
def rvmA : RVM := ⟨1, "machine-a", "Cairo", true, some 1000⟩

/-- An active machine in Alexandria that was never used. -/
def rvmB : RVM := ⟨2, "machine-b", "Alexandria Mall", true, none⟩

/-- A soft-deleted (inactive) machine. -/
def rvmC : RVM := ⟨3, "machine-c", "Giza", false, some 2000⟩

/-- A small store holding the three machines above. -/
def demoStore : Store := ⟨[rvmA, rvmB, rvmC], 4⟩

/-- A body attempting a soft delete. -/
def softDeleteBody : Body := ⟨none, none, none, some false, none⟩

/-- A body supplying every field. -/
def fullBody : Body := ⟨some 99, some "new-name", some "Luxor", some false, some (some 7)⟩

/-! ### Claims -/

/-- C1, counterexample.  The claim says an update setting `is_active=false`
soft-deletes the record, after which list excludes it and retrieve returns
404.  On the code every serializer field is read-only, so the update leaves
the store untouched: afterwards the record is still listed and retrieve
still succeeds. -/
theorem C1_counterexample :
    update 1 softDeleteBody demoStore = .ok (demoStore, rvmA) ∧
    retrieve 1 demoStore = .ok rvmA ∧
    rvmA ∈ listRVMs noParams 0 demoStore :=
  ⟨rfl, rfl, by decide⟩

/-- C1 (amended): an update (PUT/PATCH) whose body sets `is_active=false`
on a visible record succeeds but performs no soft delete: the store is
returned unchanged, the record stays active, is still contained in every
unfiltered list response, and retrieve by its identifier still succeeds
(no 404). -/
theorem C1_update_cannot_soft_delete (s : Store) (i : Nat) (b : Body) (r : RVM)
    (now : Int) (h : retrieve i s = .ok r) :
    update i b s = .ok (s, r) ∧
    r.is_active = true ∧
    r ∈ listRVMs noParams now s ∧
    retrieve i s = .ok r := by
  rw [retrieve_ok_iff] at h
  refine ⟨update_found b h, ?_, ?_, ?_⟩
  · exact ((mem_queryset s r).mp (List.mem_of_find?_eq_some h)).2
  · rw [listRVMs_noParams]
    exact List.mem_of_find?_eq_some h
  · rw [retrieve_ok_iff]
    exact h

/-- C1 witness: the amended theorem applied to the demo store. -/
theorem C1_update_cannot_soft_delete_witness :
    update 2 softDeleteBody demoStore = .ok (demoStore, rvmB) ∧
    rvmB.is_active = true ∧
    rvmB ∈ listRVMs noParams 0 demoStore ∧
    retrieve 2 demoStore = .ok rvmB :=
  C1_update_cannot_soft_delete demoStore 2 softDeleteBody rvmB 0 (by rfl)

/-- C2, counterexample.  The claim says the four non-id fields supplied on
input are applied to the record.  A create supplying all of them stores
none of them: the created record carries the model defaults. -/
theorem C2_counterexample :
    create fullBody demoStore =
      .ok (⟨[rvmA, rvmB, rvmC, ⟨4, "", "Cairo", true, none⟩], 5⟩,
        ⟨4, "", "Cairo", true, none⟩) ∧
    fullBody.name = some "new-name" :=
  ⟨rfl, rfl⟩

/-- C2 (amended): responses expose all five fields and `id` is
server-assigned, but no input field is accepted: every serializer field is
read-only, validation always returns empty data, and a create stores the
model defaults with the server's next identifier regardless of the body. -/
theorem C2_serialization_contract (r : RVM) (b : Body) (s : Store) :
    serialize r = ⟨r.id, r.name, r.location, r.is_active, r.last_usage⟩ ∧
    runValidation b = .ok ⟨none, none, none, none⟩ ∧
    create b s =
      .ok (⟨s.records ++
            [⟨s.nextId, nameDefault, locationDefault, isActiveDefault, lastUsageDefault⟩],
          s.nextId + 1⟩,
        ⟨s.nextId, nameDefault, locationDefault, isActiveDefault, lastUsageDefault⟩) := by
  refine ⟨rfl, runValidation_eq b, ?_⟩
  rw [create, runValidation_eq]
  rfl

/-- C3, counterexample.  The claim says a create omitting `name` fails with
a validation error and creates nothing.  On the code the required check is
skipped for read-only fields, so the create succeeds and appends a record. -/
theorem C3_counterexample :
    create emptyBody demoStore =
      .ok (⟨[rvmA, rvmB, rvmC, ⟨4, "", "Cairo", true, none⟩], 5⟩,
        ⟨4, "", "Cairo", true, none⟩) :=
  rfl

/-- C3 (amended): a create whose body omits `name` does not fail — every
create succeeds, because required-ness is only enforced on writable fields
and all fields are read-only.  The stored record always carries the model
defaults: `name` "" (the claimed defaults "Cairo", true and null do apply,
but so do they when the fields are supplied). -/
theorem C3_create_never_fails (b : Body) (s : Store) :
    create b s =
      .ok (⟨s.records ++ [⟨s.nextId, "", "Cairo", true, none⟩], s.nextId + 1⟩,
        ⟨s.nextId, "", "Cairo", true, none⟩) := by
  rw [create, runValidation_eq]
  rfl

/-- C4 (as claimed): with every serializer field read-only the body is
ignored on every write — each create stores `name` "", `location` "Cairo",
`is_active` true and `last_usage` null, and each update of a visible record
returns the store unchanged. -/
theorem C4_write_requests_ignore_body (b : Body) (s : Store) (i : Nat) (r : RVM) :
    create b s =
      .ok (⟨s.records ++ [⟨s.nextId, "", "Cairo", true, none⟩], s.nextId + 1⟩,
        ⟨s.nextId, "", "Cairo", true, none⟩) ∧
    (retrieve i s = .ok r → update i b s = .ok (s, r)) := by
  constructor
  · rw [create, runValidation_eq]
    rfl
  · intro h
    rw [retrieve_ok_iff] at h
    exact update_found b h

/-- C4 witness: the theorem applied to the demo store, discharging the
update half's antecedent at the visible record id 1. -/
theorem C4_write_requests_ignore_body_witness :
    create fullBody demoStore =
      .ok (⟨demoStore.records ++ [⟨demoStore.nextId, "", "Cairo", true, none⟩],
          demoStore.nextId + 1⟩,
        ⟨demoStore.nextId, "", "Cairo", true, none⟩) ∧
    update 1 fullBody demoStore = .ok (demoStore, rvmA) :=
  ⟨(C4_write_requests_ignore_body fullBody demoStore 1 rvmA).1,
    (C4_write_requests_ignore_body fullBody demoStore 1 rvmA).2 (by rfl)⟩

/-- A destroy addressed to a visible record hard-deletes it by primary key. -/
theorem destroy_found {i : Nat} {s : Store} {r : RVM}
    (h : (queryset s).find? (fun x => x.id == i) = some r) :
    destroy i s = .ok ⟨s.records.filter (fun x => !(x.id == i)), s.nextId⟩ := by
  rw [destroy, h]

/-- C5: the visible record set is exactly the active records — every listed
record is active, and retrieve on an identifier whose stored records (if
any) are all inactive returns a 404. -/
theorem C5_visible_set_is_active (s : Store) (p : QueryParams) (now : Int)
    (r : RVM) (i : Nat) :
    (r ∈ listRVMs p now s → r.is_active = true) ∧
    ((∀ x ∈ s.records, x.id = i → x.is_active = false) →
      retrieve i s = .error .notFound) := by
  constructor
  · intro hr
    rw [mem_listRVMs] at hr
    exact hr.2.1
  · exact retrieve_notFound

/-- C5 witness: on the demo store, the listed record `rvmA` is active and
retrieving the inactive record's id 3 yields a 404. -/
theorem C5_visible_set_is_active_witness :
    rvmA.is_active = true ∧ retrieve 3 demoStore = .error .notFound :=
  ⟨(C5_visible_set_is_active demoStore noParams 0 rvmA 3).1 (by decide),
    (C5_visible_set_is_active demoStore noParams 0 rvmA 3).2 (by decide)⟩

/-- C6: every list response is ordered by `last_usage` descending — over
records with non-null timestamps the order is non-increasing, and a record
with a null timestamp is never followed by one with a non-null timestamp
(nulls appear after all non-nulls). -/
theorem C6_listing_order (s : Store) (p : QueryParams) (now : Int) :
    (listRVMs p now s).Pairwise (fun a b =>
      (∀ x y, a.last_usage = some x → b.last_usage = some y → y ≤ x) ∧
      (a.last_usage = none → b.last_usage = none)) := by
  refine (pairwise_listRVMs p now s).imp ?_
  intro a b hab
  constructor
  · intro x y hx hy
    simp_all [usageLe]
  · intro hx
    rcases hy : b.last_usage with _ | t
    · rfl
    · simp_all [usageLe]

/-- C7: with `recent=true` (and no other parameter) the listed set is
exactly the active records whose `last_usage` is non-null and at or after
`now - 24h`, with the cutoff computed once from the request's single `now`;
with `recent=false` or absent, no recency filtering is applied. -/
theorem C7_recent_filter (s : Store) (now : Int) (r : RVM) :
    (r ∈ listRVMs ⟨none, none, some true⟩ now s ↔
      r ∈ s.records ∧ r.is_active = true ∧
      ∃ t, r.last_usage = some t ∧ now - dayTimedelta ≤ t) ∧
    listRVMs ⟨none, none, some false⟩ now s = queryset s ∧
    listRVMs ⟨none, none, none⟩ now s = queryset s := by
  refine ⟨?_, rfl, rfl⟩
  rw [mem_listRVMs]
  simp

/-- C8: a list request with `loc=v` returns exactly the active records
whose lower-cased `location` contains the lower-cased `v` contiguously. -/
theorem C8_loc_filter (s : Store) (v : String) (now : Int) (r : RVM) :
    r ∈ listRVMs ⟨none, some v, none⟩ now s ↔
      r ∈ s.records ∧ r.is_active = true ∧
      ∃ u w, lowerChars r.location = u ++ lowerChars v ++ w := by
  rw [mem_listRVMs]
  simp [icontains_iff]

/-- C9: the listed set is the conjunction of the supplied filter
predicates over the active records, and with no parameter supplied the
filter is the identity on the queryset. -/
theorem C9_filter_conjunction (s : Store) (p : QueryParams) (now : Int) (r : RVM) :
    (r ∈ listRVMs p now s ↔
      r ∈ s.records ∧ r.is_active = true ∧
      (∀ v, p.location = some v → r.location = v) ∧
      (∀ v, p.loc = some v → icontains r.location v = true) ∧
      (p.recent = some true → ∃ t, r.last_usage = some t ∧ now - dayTimedelta ≤ t)) ∧
    listRVMs noParams now s = queryset s :=
  ⟨mem_listRVMs, listRVMs_noParams now s⟩

/-- C10: deleting a visible record removes it permanently — the store keeps
exactly the records with a different id, the record is gone, and a
subsequent retrieve of its id misses — while a delete addressed to an
inactive record's id returns a 404 (and, returning no store, changes
nothing). -/
theorem C10_hard_delete (s s2 : Store) (i j : Nat) (r : RVM)
    (hr : retrieve i s = .ok r)
    (hj : ∀ x ∈ s2.records, x.id = j → x.is_active = false) :
    (destroy i s = .ok ⟨s.records.filter (fun x => !(x.id == i)), s.nextId⟩ ∧
      retrieve i ⟨s.records.filter (fun x => !(x.id == i)), s.nextId⟩ = .error .notFound ∧
      r ∉ s.records.filter (fun x => !(x.id == i))) ∧
    destroy j s2 = .error .notFound := by
  have hfacts := retrieve_ok_facts hr
  rw [retrieve_ok_iff] at hr
  refine ⟨⟨destroy_found hr, ?_, ?_⟩, ?_⟩
  · apply retrieve_notFound
    intro x hx hid
    rw [List.mem_filter] at hx
    exfalso
    have h2 := hx.2
    rw [hid] at h2
    simp at h2
  · intro hmem
    rw [List.mem_filter] at hmem
    have h2 := hmem.2
    rw [hfacts.2.2] at h2
    simp at h2
  · rw [destroy, queryset_find?_eq_none hj]

/-- C10 witness: on the demo store, deleting active id 1 removes it and its
retrieve then misses; deleting inactive id 3 yields a 404. -/
theorem C10_hard_delete_witness :
    (destroy 1 demoStore =
        .ok ⟨demoStore.records.filter (fun x => !(x.id == 1)), demoStore.nextId⟩ ∧
      retrieve 1 ⟨demoStore.records.filter (fun x => !(x.id == 1)), demoStore.nextId⟩ =
        .error .notFound ∧
      rvmA ∉ demoStore.records.filter (fun x => !(x.id == 1))) ∧
    destroy 3 demoStore = .error .notFound :=
  C10_hard_delete demoStore demoStore 1 3 rvmA (by rfl) (by decide)

end RVMStatus
